import Mathlib

/-!
Shallow embedding of `dali::detail::LookaheadParser`
(src/dali/pipeline/util/lookahead_parser.h), a one-token-lookahead pull
parser for JSON built on an external SAX-style Event Source
(rapidjson::Reader).

The Event Source is an external collaborator (out of scope for the
repository) and is modelled by its contract: it produces a finite
sequence of primitive parse events, one per `IterativeParseNext` call;
asking it for an event at a syntax-error point (an empty or truncated
document, or past the end of a complete document) raises its sticky
parse-error flag (`HasParseError`) without invoking any handler
callback; a handler callback returning `false` (here only `RawNumber`,
line 49) also raises that flag (rapidjson records
`kParseErrorTermination`).  IEEE doubles are modelled as exact
rationals; every numeric value appearing in the verified claims is
represented exactly by a rational.
-/

set_option autoImplicit false

/-- One primitive parse event delivered by the Event Source, i.e. one
handler callback of `LookaheadParserHandler` (lines 42-63 of
lookahead_parser.h). -/
inductive REvent where
  | Null
  | BoolE (b : Bool)
  | IntE (i : Int)
  | UintE (u : Nat)
  | Int64E (i : Int)
  | Uint64E (u : Nat)
  | DoubleE (d : Rat)
  | RawNumber
  | StringE (s : String)
  | StartObject
  | KeyE (s : String)
  | EndObject
  | StartArray
  | EndArray
deriving DecidableEq, Repr

/-- The `LookaheadParsingState` enumeration (lines 70-82), in source
declaration order. -/
inductive LookaheadParsingState where
  | kInit
  | kError
  | kHasNull
  | kHasBool
  | kHasNumber
  | kHasString
  | kHasKey
  | kEnteringObject
  | kExitingObject
  | kEnteringArray
  | kExitingArray
deriving DecidableEq, Repr

/-- Numeric value of each enumerator, following C++ enumeration order
(lines 70-82); `PeekValue`/`PeekType` compare states with `<=`. -/
def LookaheadParsingState.toNat : LookaheadParsingState → Nat
  | .kInit => 0
  | .kError => 1
  | .kHasNull => 2
  | .kHasBool => 3
  | .kHasNumber => 4
  | .kHasString => 5
  | .kHasKey => 6
  | .kEnteringObject => 7
  | .kExitingObject => 8
  | .kEnteringArray => 9
  | .kExitingArray => 10

/-- The buffered `rapidjson::Value v_`, restricted to the shapes the
handler callbacks store (SetNull/SetBool/SetInt/SetUint/SetInt64/
SetUint64/SetDouble/SetString).  Each numeric constructor remembers
which setter produced it, because `Value::IsInt()` is a flag check
determined by the setter, not by the numeric value. -/
inductive RValue where
  | null
  | boolV (b : Bool)
  | intV (i : Int)
  | uintV (u : Nat)
  | int64V (i : Int)
  | uint64V (u : Nat)
  | doubleV (d : Rat)
  | stringV (s : String)
deriving DecidableEq, Repr

/-- `rapidjson::Value::IsInt()`: true exactly when the stored number
carries the int flag: always for `SetInt`; for `SetUint`, `SetInt64`,
`SetUint64` when the value fits in [-2^31, 2^31); never for
`SetDouble` (a double never carries the int flag, whatever its
value). -/
def RValue.isInt : RValue → Bool
  | .intV _ => true
  | .uintV u => decide (u ≤ 2147483647)
  | .int64V i => decide (-2147483648 ≤ i ∧ i ≤ 2147483647)
  | .uint64V u => decide (u ≤ 2147483647)
  | _ => false

/-- `rapidjson::Value::GetInt()`, meaningful when `IsInt()` holds (all
call sites in the source guard on `IsInt()`). -/
def RValue.getIntVal : RValue → Int
  | .intV i => i
  | .uintV u => (u : Int)
  | .int64V i => i
  | .uint64V u => (u : Int)
  | _ => 0

/-- `rapidjson::Value::GetDouble()`: returns the double directly, and
widens an integer-stored number to floating point (modelled
exactly as a rational). -/
def RValue.getDoubleVal : RValue → Rat
  | .intV i => (i : Rat)
  | .uintV u => (u : Rat)
  | .int64V i => (i : Rat)
  | .uint64V u => (u : Rat)
  | .doubleV d => d
  | _ => 0

/-- `rapidjson::Value::GetBool()`, meaningful in the `kHasBool` state. -/
def RValue.getBoolVal : RValue → Bool
  | .boolV b => b
  | _ => false

/-- `rapidjson::Value::GetString()`, meaningful when the value holds
text (`kHasKey`/`kHasString` states); `none` models a null
`const char*`. -/
def RValue.getStringVal : RValue → Option String
  | .stringV s => some s
  | _ => none

/-- `rapidjson::Value::GetType()` as its numeric `rapidjson::Type` tag:
kNullType = 0, kFalseType = 1, kTrueType = 2, kObjectType = 3,
kArrayType = 4, kStringType = 5, kNumberType = 6. -/
def RValue.getType : RValue → Int
  | .null => 0
  | .boolV false => 1
  | .boolV true => 2
  | .stringV _ => 5
  | _ => 6

/-- The adapter state: the buffered value `v_` and state `st_`
(lines 84-85) together with the Event Source modelled by its contract:
the list of events it has yet to produce and its sticky parse-error
flag (`r_.HasParseError()`). -/
structure ParserState where
  v : RValue
  st : LookaheadParsingState
  events : List REvent
  hasError : Bool
deriving DecidableEq, Repr

/-- Dispatch of one handler callback (lines 42-63): each callback sets
`st_` and (for scalar/key events) `v_`, returning `true`; `RawNumber`
(line 49) returns `false`, which makes the Event Source record a
termination error without touching `st_`/`v_`. -/
def handleEvent (p : ParserState) (e : REvent) : ParserState :=
  match e with
  | .Null => { p with st := .kHasNull, v := .null }
  | .BoolE b => { p with st := .kHasBool, v := .boolV b }
  | .IntE i => { p with st := .kHasNumber, v := .intV i }
  | .UintE u => { p with st := .kHasNumber, v := .uintV u }
  | .Int64E i => { p with st := .kHasNumber, v := .int64V i }
  | .Uint64E u => { p with st := .kHasNumber, v := .uint64V u }
  | .DoubleE d => { p with st := .kHasNumber, v := .doubleV d }
  | .RawNumber => { p with hasError := true }
  | .StringE s => { p with st := .kHasString, v := .stringV s }
  | .StartObject => { p with st := .kEnteringObject }
  | .KeyE s => { p with st := .kHasKey, v := .stringV s }
  | .EndObject => { p with st := .kExitingObject }
  | .StartArray => { p with st := .kEnteringArray }
  | .EndArray => { p with st := .kExitingArray }

/-- `LookaheadParserHandler::ParseNext` (lines 98-105): if the Event
Source already reports an error, set `st_ = kError` and return;
otherwise drive `IterativeParseNext`, which either delivers the next
event to the handler or (at a syntax-error point, modelled by the
exhausted event list) raises the sticky error flag without invoking
the handler. -/
def ParseNext (p : ParserState) : ParserState :=
  if p.hasError then { p with st := .kError }
  else
    match p.events with
    | [] => { p with hasError := true }
    | e :: rest => handleEvent { p with events := rest } e

/-- The constructor `LookaheadParserHandler::LookaheadParserHandler`
(lines 92-96): `v_()` default-constructs to null, `st_(kInit)`,
`IterativeParseInit`, then exactly one `ParseNext`. -/
def mkParser (events : List REvent) : ParserState :=
  ParseNext { v := .null, st := .kInit, events := events, hasError := false }

/-- `LookaheadParser::IsValid` (line 128). -/
def IsValid (p : ParserState) : Bool :=
  decide (p.st ≠ .kError)

/-- `LookaheadParser::EnterObject` (lines 134-142). -/
def EnterObject (p : ParserState) : Bool × ParserState :=
  if p.st ≠ .kEnteringObject then (false, { p with st := .kError })
  else (true, ParseNext p)

/-- `LookaheadParser::EnterArray` (lines 144-152). -/
def EnterArray (p : ParserState) : Bool × ParserState :=
  if p.st ≠ .kEnteringArray then (false, { p with st := .kError })
  else (true, ParseNext p)

/-- `LookaheadParser::NextObjectKey` (lines 154-168); the returned
`const char*` is modelled as `Option String`, a null pointer being
`none`. -/
def NextObjectKey (p : ParserState) : Option String × ParserState :=
  if p.st = .kHasKey then (p.v.getStringVal, ParseNext p)
  else if p.st ≠ .kExitingObject then (none, { p with st := .kError })
  else (none, ParseNext p)

/-- `LookaheadParser::NextArrayValue` (lines 170-182). -/
def NextArrayValue (p : ParserState) : Bool × ParserState :=
  if p.st = .kExitingArray then (false, ParseNext p)
  else if p.st = .kError ∨ p.st = .kExitingObject ∨ p.st = .kHasKey then
    (false, { p with st := .kError })
  else (true, p)

/-- `LookaheadParser::GetInt` (lines 184-193). -/
def GetInt (p : ParserState) : Int × ParserState :=
  if p.st ≠ .kHasNumber ∨ p.v.isInt = false then (0, { p with st := .kError })
  else (p.v.getIntVal, ParseNext p)

/-- `LookaheadParser::GetDouble` (lines 195-204). -/
def GetDouble (p : ParserState) : Rat × ParserState :=
  if p.st ≠ .kHasNumber then (0, { p with st := .kError })
  else (p.v.getDoubleVal, ParseNext p)

/-- `LookaheadParser::GetBool` (lines 206-215). -/
def GetBool (p : ParserState) : Bool × ParserState :=
  if p.st ≠ .kHasBool then (false, { p with st := .kError })
  else (p.v.getBoolVal, ParseNext p)

/-- `LookaheadParser::GetNull` (lines 217-224), a void method: only the
state is returned. -/
def GetNull (p : ParserState) : ParserState :=
  if p.st ≠ .kHasNull then { p with st := .kError }
  else ParseNext p

/-- `LookaheadParser::GetString` (lines 226-235). -/
def GetString (p : ParserState) : Option String × ParserState :=
  if p.st ≠ .kHasString then (none, { p with st := .kError })
  else (p.v.getStringVal, ParseNext p)

/-- `LookaheadParser::PeekValue` (lines 263-269): returns a pointer to
`v_` (modelled as `some v_`) when `kHasNull <= st_ <= kHasKey`, else a
null pointer; the method mutates nothing, so the state component of the
result is the input state. -/
def PeekValue (p : ParserState) : Option RValue × ParserState :=
  if LookaheadParsingState.kHasNull.toNat ≤ p.st.toNat ∧
      p.st.toNat ≤ LookaheadParsingState.kHasKey.toNat then (some p.v, p)
  else (none, p)

/-- `LookaheadParser::PeekType` (lines 271-285): the buffered value's
type tag in the `kHasNull..kHasKey` range, `kArrayType` (4) on
`kEnteringArray`, `kObjectType` (3) on `kEnteringObject`, `-1`
otherwise; mutates nothing. -/
def PeekType (p : ParserState) : Int × ParserState :=
  if LookaheadParsingState.kHasNull.toNat ≤ p.st.toNat ∧
      p.st.toNat ≤ LookaheadParsingState.kHasKey.toNat then (p.v.getType, p)
  else if p.st = .kEnteringArray then (4, p)
  else if p.st = .kEnteringObject then (3, p)
  else (-1, p)

/-- Termination measure for `SkipOut`: each `ParseNext` from a
non-`kError` state either consumes an event, or turns the sticky error
flag on, or turns the state into `kError`. -/
def pMeasure (p : ParserState) : Nat :=
  2 * p.events.length + (if p.hasError then 0 else 1) +
    (if p.st = .kError then 0 else 1)

/-- `LookaheadParser::SkipOut` (lines 237-249), the depth-counter
do-while loop: adjust `depth` by the current state (entering container
is +1, exiting is -1), abort on `kError`, otherwise `ParseNext`, and
continue while `depth > 0`. -/
def SkipOut (p : ParserState) (depth : Int) : ParserState :=
  if p.st = .kEnteringArray ∨ p.st = .kEnteringObject then
    let p2 := ParseNext p
    if depth + 1 > 0 then SkipOut p2 (depth + 1) else p2
  else if p.st = .kExitingArray ∨ p.st = .kExitingObject then
    let p2 := ParseNext p
    if depth - 1 > 0 then SkipOut p2 (depth - 1) else p2
  else if p.st = .kError then p
  else
    let p2 := ParseNext p
    if depth > 0 then SkipOut p2 depth else p2
termination_by pMeasure p
decreasing_by
  all_goals
    have hne : p.st ≠ LookaheadParsingState.kError := by
      intro hcontra
      simp_all
    unfold ParseNext pMeasure
    by_cases he : p.hasError
    · simp [he, hne]
    · cases hev : p.events with
      | nil => simp [he, hev, hne]
      | cons e rest =>
        cases e <;> simp [handleEvent, he, hev, hne]
        all_goals omega

/-- `LookaheadParser::SkipValue` (lines 251-253). -/
def SkipValue (p : ParserState) : ParserState :=
  SkipOut p 0

/-- `LookaheadParser::SkipArray` (lines 255-257). -/
def SkipArray (p : ParserState) : ParserState :=
  SkipOut p 1

/-- `LookaheadParser::SkipObject` (lines 259-261). -/
def SkipObject (p : ParserState) : ParserState :=
  SkipOut p 1

/-- Iterated fetch: `fetchN n p` performs `ParseNext` `n` times. -/
def fetchN : Nat → ParserState → ParserState
  | 0, p => p
  | n + 1, p => fetchN n (ParseNext p)

/-- One public navigation call of `LookaheadParser`, used to state
properties of arbitrary call sequences. -/
inductive NavOp where
  | enterObject
  | enterArray
  | nextObjectKey
  | nextArrayValue
  | getInt
  | getDouble
  | getBool
  | getString
  | getNull
  | skipValue
  | skipArray
  | skipObject
  | peekValue
  | peekType
deriving DecidableEq, Repr

/-- The state reached by one navigation call (discarding its returned
value). -/
def applyNav (p : ParserState) (op : NavOp) : ParserState :=
  match op with
  | .enterObject => (EnterObject p).2
  | .enterArray => (EnterArray p).2
  | .nextObjectKey => (NextObjectKey p).2
  | .nextArrayValue => (NextArrayValue p).2
  | .getInt => (GetInt p).2
  | .getDouble => (GetDouble p).2
  | .getBool => (GetBool p).2
  | .getString => (GetString p).2
  | .getNull => GetNull p
  | .skipValue => SkipValue p
  | .skipArray => SkipArray p
  | .skipObject => SkipObject p
  | .peekValue => (PeekValue p).2
  | .peekType => (PeekType p).2

/-- The state reached by a sequence of navigation calls. -/
def runNav (p : ParserState) (ops : List NavOp) : ParserState :=
  ops.foldl applyNav p

/-- Depth contribution of one event in the skip algorithm: entering a
container is +1, exiting is -1, scalars and keys are 0. -/
def eventDelta : REvent → Int
  | .StartObject => 1
  | .StartArray => 1
  | .EndObject => -1
  | .EndArray => -1
  | _ => 0

/-- Depth contribution of the buffered state in `SkipOut`. -/
def stDelta : LookaheadParsingState → Int
  | .kEnteringArray => 1
  | .kEnteringObject => 1
  | .kExitingArray => -1
  | .kExitingObject => -1
  | _ => 0

/-- Total depth change of an event sequence. -/
def deltaSum (bs : List REvent) : Int :=
  (bs.map eventDelta).sum

/-- `ClosesOut d0 bs`: starting from running depth `d0 > 0` (the depth
after the buffered token has been counted), the event sequence `bs` is
exactly what remains of the currently open containers: the running
depth stays positive at every proper prefix and reaches 0 exactly at
the end, with no unsupported raw-number event.  For a balanced stream,
the events of the rest of one container (through its matching close
event) satisfy `ClosesOut 1`. -/
def ClosesOut (d0 : Int) (bs : List REvent) : Prop :=
  d0 + deltaSum bs = 0 ∧
    (∀ n, n < bs.length → 0 < d0 + deltaSum (bs.take n)) ∧
    REvent.RawNumber ∉ bs

/-- The range constraints imposed by the C types of the handler
callback parameters (lines 44-47): `Int` receives an `int`, `Uint` an
`unsigned`, `Int64` an `int64_t`, `Uint64` a `uint64_t`; the Event
Source can only deliver values of those types. -/
def RValue.wellTyped : RValue → Prop
  | .intV i => -2147483648 ≤ i ∧ i ≤ 2147483647
  | .uintV u => u ≤ 4294967295
  | .int64V i => -9223372036854775808 ≤ i ∧ i ≤ 9223372036854775807
  | .uint64V u => u ≤ 18446744073709551615
  | _ => True

instance (v : RValue) : Decidable v.wellTyped := by
  cases v <;> simp [RValue.wellTyped] <;> infer_instance

instance (d0 : Int) (bs : List REvent) : Decidable (ClosesOut d0 bs) := by
  unfold ClosesOut
  infer_instance

/-! ## Helper lemmas -/

theorem setError_eq_self (p : ParserState) (h : p.st = .kError) :
    { p with st := LookaheadParsingState.kError } = p := by
  cases p
  simp_all

theorem fetchN_succ (n : Nat) (p : ParserState) :
    fetchN (n + 1) p = fetchN n (ParseNext p) := rfl

theorem deltaSum_nil : deltaSum [] = 0 := rfl

theorem deltaSum_cons (e : REvent) (bs : List REvent) :
    deltaSum (e :: bs) = eventDelta e + deltaSum bs := by
  simp [deltaSum]

theorem handleEvent_good (q : ParserState) (e : REvent)
    (h : e ≠ REvent.RawNumber) :
    (handleEvent q e).hasError = q.hasError ∧
    (handleEvent q e).events = q.events ∧
    (handleEvent q e).st ≠ LookaheadParsingState.kError ∧
    stDelta (handleEvent q e).st = eventDelta e := by
  cases e <;> simp_all [handleEvent, stDelta, eventDelta]

theorem ParseNext_consume (p : ParserState) (e : REvent) (rest : List REvent)
    (hflag : p.hasError = false) (hev : p.events = e :: rest) :
    ParseNext p = handleEvent { p with events := rest } e := by
  simp [ParseNext, hflag, hev]

theorem SkipOut_error (p : ParserState) (d : Int) (h : p.st = .kError) :
    SkipOut p d = p := by
  rw [SkipOut]
  simp [h]

theorem SkipOut_step (p : ParserState) (d : Int)
    (hne : p.st ≠ .kError) (hpos : 0 < d + stDelta p.st) :
    SkipOut p d = SkipOut (ParseNext p) (d + stDelta p.st) := by
  rw [SkipOut]
  cases hst : p.st <;> simp_all [stDelta] <;> rw [Int.sub_eq_add_neg]

theorem SkipOut_stop (p : ParserState) (d : Int)
    (hne : p.st ≠ .kError) (hzero : d + stDelta p.st = 0) :
    SkipOut p d = ParseNext p := by
  rw [SkipOut]
  cases hst : p.st <;> simp_all [stDelta] <;> omega

theorem SkipOut_spec (bs : List REvent) :
    ∀ (p : ParserState) (d : Int) (rest : List REvent),
      p.hasError = false → p.st ≠ .kError → p.events = bs ++ rest →
      ClosesOut (d + stDelta p.st) bs →
      SkipOut p d = fetchN (bs.length + 1) p := by
  induction bs with
  | nil =>
    intro p d rest hflag hne hev hcl
    obtain ⟨hsum, _, _⟩ := hcl
    rw [deltaSum_nil, add_zero] at hsum
    rw [SkipOut_stop p d hne hsum]
    rfl
  | cons e bs2 ih =>
    intro p d rest hflag hne hev hcl
    obtain ⟨hsum, hpre, hraw⟩ := hcl
    have hpos : 0 < d + stDelta p.st := by
      have := hpre 0 (by simp)
      simpa [deltaSum_nil] using this
    have heraw : e ≠ REvent.RawNumber := by
      intro hcontra
      exact hraw (by rw [hcontra]; exact List.mem_cons_self _ _)
    have hcons : ParseNext p = handleEvent { p with events := bs2 ++ rest } e :=
      ParseNext_consume p e (bs2 ++ rest) hflag (by simpa using hev)
    obtain ⟨hg1, hg2, hg3, hg4⟩ := handleEvent_good { p with events := bs2 ++ rest } e heraw
    rw [SkipOut_step p d hne hpos, hcons]
    have hrec := ih (handleEvent { p with events := bs2 ++ rest } e)
      (d + stDelta p.st) rest (by rw [hg1]; exact hflag) hg3 (by rw [hg2])
      ⟨by rw [hg4]; rw [deltaSum_cons] at hsum; omega,
       by
        intro n hn
        rw [hg4]
        have := hpre (n + 1) (by simpa using Nat.succ_lt_succ hn)
        rw [List.take_succ_cons, deltaSum_cons] at this
        omega,
       fun hmem => hraw (List.mem_cons_of_mem _ hmem)⟩
    rw [hrec, ← hcons, List.length_cons, ← fetchN_succ]

theorem fetchN_events (bs : List REvent) :
    ∀ (p : ParserState) (rest : List REvent),
      p.hasError = false → REvent.RawNumber ∉ bs → p.events = bs ++ rest →
      (fetchN bs.length p).events = rest ∧ (fetchN bs.length p).hasError = false := by
  induction bs with
  | nil =>
    intro p rest hflag _ hev
    simpa [fetchN] using ⟨hev, hflag⟩
  | cons e bs2 ih =>
    intro p rest hflag hraw hev
    have heraw : e ≠ REvent.RawNumber := by
      intro hcontra
      exact hraw (by rw [hcontra]; exact List.mem_cons_self _ _)
    have hcons : ParseNext p = handleEvent { p with events := bs2 ++ rest } e :=
      ParseNext_consume p e (bs2 ++ rest) hflag (by simpa using hev)
    obtain ⟨hg1, hg2, _, _⟩ := handleEvent_good { p with events := bs2 ++ rest } e heraw
    rw [List.length_cons, fetchN_succ, hcons]
    exact ih _ rest (by rw [hg1]; exact hflag)
      (fun hmem => hraw (List.mem_cons_of_mem _ hmem)) (by rw [hg2])

/-! ## Claims -/

/-- Claim C1: the Error state is absorbing: whenever `st_ = kError`,
every navigation operation (EnterObject, EnterArray, NextObjectKey,
NextArrayValue, the scalar getters, SkipValue/SkipArray/SkipObject,
PeekValue, PeekType, IsValid) returns its failure sentinel and leaves
the whole adapter state — including the Event Source, which is never
asked for another event — exactly unchanged; consequently every
sequence of navigation calls starting from an Error state leaves the
state unchanged. -/
theorem error_state_is_absorbing (p : ParserState) (h : p.st = .kError) :
    EnterObject p = (false, p) ∧
    EnterArray p = (false, p) ∧
    NextObjectKey p = (none, p) ∧
    NextArrayValue p = (false, p) ∧
    GetInt p = (0, p) ∧
    GetDouble p = (0, p) ∧
    GetBool p = (false, p) ∧
    GetString p = (none, p) ∧
    GetNull p = p ∧
    SkipValue p = p ∧
    SkipArray p = p ∧
    SkipObject p = p ∧
    PeekValue p = (none, p) ∧
    PeekType p = (-1, p) ∧
    IsValid p = false ∧
    (∀ ops : List NavOp, runNav p ops = p) := by
  have hself : { p with st := LookaheadParsingState.kError } = p :=
    setError_eq_self p h
  have h1 : EnterObject p = (false, p) := by
    simp [EnterObject, h, hself]
  have h2 : EnterArray p = (false, p) := by
    simp [EnterArray, h, hself]
  have h3 : NextObjectKey p = (none, p) := by
    simp [NextObjectKey, h, hself]
  have h4 : NextArrayValue p = (false, p) := by
    simp [NextArrayValue, h, hself]
  have h5 : GetInt p = (0, p) := by
    simp [GetInt, h, hself]
  have h6 : GetDouble p = (0, p) := by
    simp [GetDouble, h, hself]
  have h7 : GetBool p = (false, p) := by
    simp [GetBool, h, hself]
  have h8 : GetString p = (none, p) := by
    simp [GetString, h, hself]
  have h9 : GetNull p = p := by
    simp [GetNull, h, hself]
  have h10 : SkipValue p = p := SkipOut_error p 0 h
  have h11 : SkipArray p = p := SkipOut_error p 1 h
  have h12 : SkipObject p = p := SkipOut_error p 1 h
  have h13 : PeekValue p = (none, p) := by
    simp [PeekValue, h, LookaheadParsingState.toNat]
  have h14 : PeekType p = (-1, p) := by
    simp [PeekType, h, LookaheadParsingState.toNat]
  have h15 : IsValid p = false := by
    simp [IsValid, h]
  have hop : ∀ op : NavOp, applyNav p op = p := by
    intro op
    cases op <;>
      simp [applyNav, h1, h2, h3, h4, h5, h6, h7, h8, h9, h10, h11, h12,
        h13, h14]
  have hrun : ∀ ops : List NavOp, runNav p ops = p := by
    intro ops
    induction ops with
    | nil => rfl
    | cons a tl ih =>
      show List.foldl applyNav (applyNav p a) tl = p
      rw [hop a]
      exact ih
  exact ⟨h1, h2, h3, h4, h5, h6, h7, h8, h9, h10, h11, h12, h13, h14,
    h15, hrun⟩

/-- Witness for C1 at a concrete Error-state adapter. -/
theorem error_state_is_absorbing_witness :
    EnterObject ⟨RValue.null, LookaheadParsingState.kError,
        [REvent.Null], false⟩ =
      (false, ⟨RValue.null, LookaheadParsingState.kError,
        [REvent.Null], false⟩) :=
  (error_state_is_absorbing
    ⟨RValue.null, LookaheadParsingState.kError, [REvent.Null], false⟩
    rfl).1

/-- Claim C2 counterexample: on the malformed document {"a":}, whose
Event Source produces StartObject and Key "a" and then reports a
syntax error, the fetch performed while reading key "a" is exactly the
fetch during which the Event Source reports the syntax error (its
sticky flag turns on), yet it does NOT set the adapter state to Error:
the state is still kHasKey and IsValid() is still true, refuting the
claim that such a fetch sets the state to Error. -/
theorem failing_fetch_not_error_counterexample :
    (NextObjectKey (EnterObject
        (mkParser [REvent.StartObject, REvent.KeyE "a"])).2).1 = some "a" ∧
    (NextObjectKey (EnterObject
        (mkParser [REvent.StartObject, REvent.KeyE "a"])).2).2.hasError
      = true ∧
    (NextObjectKey (EnterObject
        (mkParser [REvent.StartObject, REvent.KeyE "a"])).2).2.st
      = LookaheadParsingState.kHasKey ∧
    IsValid (NextObjectKey (EnterObject
        (mkParser [REvent.StartObject, REvent.KeyE "a"])).2).2 = true := by
  decide

/-- Claim C2 (amended): a fetch during which the Event Source reports
a syntax error only turns the Event Source's sticky error flag on and
leaves the adapter's state and buffered value unchanged (so IsValid()
still returns true right after it); the state becomes Error at the
start of the following fetch, which checks the error flag before
parsing.  In particular for {"a":}, after entering the object and
reading key "a" (whose trailing fetch is the one that hits the syntax
error), IsValid() is still true, and the next fetch makes it false. -/
theorem syntax_error_detected_at_following_fetch (p : ParserState)
    (hflag : p.hasError = false) (hev : p.events = [])
    (hst : p.st ≠ .kError) :
    ParseNext p = { p with hasError := true } ∧
    IsValid (ParseNext p) = true ∧
    (ParseNext (ParseNext p)).st = .kError ∧
    IsValid (ParseNext (ParseNext p)) = false := by
  have h1 : ParseNext p = { p with hasError := true } := by
    simp [ParseNext, hflag, hev]
  refine ⟨h1, ?_, ?_, ?_⟩
  · rw [h1]
    simpa [IsValid] using hst
  · rw [h1]
    simp [ParseNext]
  · rw [h1]
    simp [ParseNext, IsValid]

/-- Witness for the amended C2, at the adapter state reached on
{"a":} after EnterObject and NextObjectKey have consumed StartObject
and Key "a": the buffered token is the key and the event list is
exhausted. -/
theorem syntax_error_detected_at_following_fetch_witness :
    ParseNext ⟨RValue.stringV "a", LookaheadParsingState.kHasKey, [],
        false⟩ =
      ⟨RValue.stringV "a", LookaheadParsingState.kHasKey, [], true⟩ :=
  (syntax_error_detected_at_following_fetch
    ⟨RValue.stringV "a", LookaheadParsingState.kHasKey, [], false⟩
    rfl rfl (by decide)).1

/-- Claim C3 counterexample: constructing the adapter on an empty
document (the Event Source reports a syntax error at the very first
fetch) does NOT put it in the Error state: the state is still kInit
and IsValid() returns true, refuting the claim that IsValid() is
false immediately after constructing on an empty/invalid document. -/
theorem empty_document_construction_counterexample :
    (mkParser []).st = LookaheadParsingState.kInit ∧
    IsValid (mkParser []) = true := by
  decide

/-- Claim C3 (amended): construction performs exactly one fetch, and a
freshly constructed adapter's state reflects the first token of the
document when that token is valid; when the document is empty or
invalid at its very first token (including an unsupported raw-number
first event), the state remains kInit — not Error — with IsValid()
still true, and the Error state appears only at the next fetch. -/
theorem construction_primes_exactly_one_fetch :
    (∀ es : List REvent, mkParser es =
      ParseNext ⟨RValue.null, LookaheadParsingState.kInit, es, false⟩) ∧
    (∀ es : List REvent,
      (mkParser (REvent.Null :: es)).st = LookaheadParsingState.kHasNull) ∧
    (∀ (b : Bool) (es : List REvent),
      (mkParser (REvent.BoolE b :: es)).st = LookaheadParsingState.kHasBool) ∧
    (∀ (i : Int) (es : List REvent),
      (mkParser (REvent.IntE i :: es)).st = LookaheadParsingState.kHasNumber) ∧
    (∀ (u : Nat) (es : List REvent),
      (mkParser (REvent.UintE u :: es)).st = LookaheadParsingState.kHasNumber) ∧
    (∀ (i : Int) (es : List REvent),
      (mkParser (REvent.Int64E i :: es)).st = LookaheadParsingState.kHasNumber) ∧
    (∀ (u : Nat) (es : List REvent),
      (mkParser (REvent.Uint64E u :: es)).st = LookaheadParsingState.kHasNumber) ∧
    (∀ (d : Rat) (es : List REvent),
      (mkParser (REvent.DoubleE d :: es)).st = LookaheadParsingState.kHasNumber) ∧
    (∀ (s : String) (es : List REvent),
      (mkParser (REvent.StringE s :: es)).st = LookaheadParsingState.kHasString) ∧
    (∀ es : List REvent,
      (mkParser (REvent.StartObject :: es)).st =
        LookaheadParsingState.kEnteringObject) ∧
    (∀ (s : String) (es : List REvent),
      (mkParser (REvent.KeyE s :: es)).st = LookaheadParsingState.kHasKey) ∧
    (∀ es : List REvent,
      (mkParser (REvent.EndObject :: es)).st =
        LookaheadParsingState.kExitingObject) ∧
    (∀ es : List REvent,
      (mkParser (REvent.StartArray :: es)).st =
        LookaheadParsingState.kEnteringArray) ∧
    (∀ es : List REvent,
      (mkParser (REvent.EndArray :: es)).st =
        LookaheadParsingState.kExitingArray) ∧
    (∀ es : List REvent,
      (mkParser (REvent.RawNumber :: es)).st = LookaheadParsingState.kInit ∧
      (mkParser (REvent.RawNumber :: es)).hasError = true ∧
      IsValid (mkParser (REvent.RawNumber :: es)) = true) ∧
    mkParser [] = ⟨RValue.null, LookaheadParsingState.kInit, [], true⟩ ∧
    IsValid (mkParser []) = true ∧
    (ParseNext (mkParser [])).st = LookaheadParsingState.kError ∧
    IsValid (ParseNext (mkParser [])) = false := by
  refine ⟨fun es => rfl, ?_, ?_, ?_, ?_, ?_, ?_, ?_, ?_, ?_, ?_, ?_, ?_,
    ?_, ?_, ?_, ?_, ?_, ?_⟩ <;>
    intros <;>
    simp [mkParser, ParseNext, handleEvent, IsValid]

/-- Claim C4: the skip operations follow the depth-counter algorithm:
SkipValue starts at depth 0 and SkipArray/SkipObject at depth 1; in
the Error state SkipValue (i.e. SkipOut) aborts immediately as a
no-op; SkipValue on a buffered scalar token performs exactly one
fetch; and SkipValue on a container-entering token of a balanced
stream (`ClosesOut 1 bs` says `bs` is the rest of the open container
through its matching close event) consumes exactly the container's
events and one following fetch, landing on the event immediately
following the container — its next sibling — for arbitrarily deep
nesting. -/
theorem skip_depth_counter_algorithm :
    (∀ p : ParserState, SkipValue p = SkipOut p 0 ∧
      SkipArray p = SkipOut p 1 ∧ SkipObject p = SkipOut p 1) ∧
    (∀ p : ParserState, p.st = .kError → SkipValue p = p) ∧
    (∀ p : ParserState,
      p.st = .kHasNull ∨ p.st = .kHasBool ∨ p.st = .kHasNumber ∨
        p.st = .kHasString →
      SkipValue p = ParseNext p) ∧
    (∀ (p : ParserState) (bs rest : List REvent),
      p.hasError = false →
      p.st = .kEnteringArray ∨ p.st = .kEnteringObject →
      p.events = bs ++ rest →
      ClosesOut 1 bs →
      SkipValue p = fetchN (bs.length + 1) p ∧
        (fetchN bs.length p).events = rest ∧
        (fetchN bs.length p).hasError = false) := by
  refine ⟨fun p => ⟨rfl, rfl, rfl⟩, ?_, ?_, ?_⟩
  · intro p h
    exact SkipOut_error p 0 h
  · intro p h
    have hne : p.st ≠ LookaheadParsingState.kError := by
      rcases h with h | h | h | h <;> simp [h]
    have hzero : (0 : Int) + stDelta p.st = 0 := by
      rcases h with h | h | h | h <;> simp [h, stDelta]
    exact SkipOut_stop p 0 hne hzero
  · intro p bs rest hflag hst hev hcl
    have hne : p.st ≠ LookaheadParsingState.kError := by
      rcases hst with h | h <;> simp [h]
    have hdelta : (0 : Int) + stDelta p.st = 1 := by
      rcases hst with h | h <;> simp [h, stDelta]
    have hmain : SkipValue p = fetchN (bs.length + 1) p := by
      show SkipOut p 0 = fetchN (bs.length + 1) p
      exact SkipOut_spec bs p 0 rest hflag hne hev (by rw [hdelta]; exact hcl)
    have hrawn : REvent.RawNumber ∉ bs := hcl.2.2
    have hlands := fetchN_events bs p rest hflag hrawn hev
    exact ⟨hmain, hlands.1, hlands.2⟩

/-- Witness for C4 on a concretely nested stream: the adapter has just
buffered the opening of `[["x" : 1-like object] ...]` — precisely, the
current token enters the outer array of the document fragment
[[{"x":1}]] and the events continue with its contents, its close, and
then the sibling value 5. -/
theorem skip_depth_counter_algorithm_witness :
    SkipValue ⟨RValue.null, LookaheadParsingState.kEnteringArray,
        [REvent.StartArray, REvent.StartObject, REvent.KeyE "x",
          REvent.UintE 1, REvent.EndObject, REvent.EndArray,
          REvent.EndArray, REvent.UintE 5, REvent.EndArray], false⟩ =
      fetchN 8 ⟨RValue.null, LookaheadParsingState.kEnteringArray,
        [REvent.StartArray, REvent.StartObject, REvent.KeyE "x",
          REvent.UintE 1, REvent.EndObject, REvent.EndArray,
          REvent.EndArray, REvent.UintE 5, REvent.EndArray], false⟩ ∧
    (fetchN 7 ⟨RValue.null, LookaheadParsingState.kEnteringArray,
        [REvent.StartArray, REvent.StartObject, REvent.KeyE "x",
          REvent.UintE 1, REvent.EndObject, REvent.EndArray,
          REvent.EndArray, REvent.UintE 5, REvent.EndArray],
        false⟩).events = [REvent.UintE 5, REvent.EndArray] := by
  have h := (skip_depth_counter_algorithm.2.2.2
    ⟨RValue.null, LookaheadParsingState.kEnteringArray,
      [REvent.StartArray, REvent.StartObject, REvent.KeyE "x",
        REvent.UintE 1, REvent.EndObject, REvent.EndArray,
        REvent.EndArray, REvent.UintE 5, REvent.EndArray], false⟩
    [REvent.StartArray, REvent.StartObject, REvent.KeyE "x",
      REvent.UintE 1, REvent.EndObject, REvent.EndArray, REvent.EndArray]
    [REvent.UintE 5, REvent.EndArray]
    rfl (Or.inl rfl) rfl (by decide))
  exact ⟨h.1, h.2.1⟩

/-- Claim C5: NextArrayValue: in state kExitingArray it fetches and
returns false ("no more values"); in kError, kExitingObject or kHasKey
it sets the state to kError and returns false; in every other state it
returns true without any fetch, leaving the whole adapter state —
buffered token and Event Source included — untouched. -/
theorem next_array_value_cases (p : ParserState) :
    (p.st = .kExitingArray → NextArrayValue p = (false, ParseNext p)) ∧
    (p.st = .kError ∨ p.st = .kExitingObject ∨ p.st = .kHasKey →
      NextArrayValue p = (false, { p with st := .kError })) ∧
    (p.st ≠ .kExitingArray →
      ¬(p.st = .kError ∨ p.st = .kExitingObject ∨ p.st = .kHasKey) →
      NextArrayValue p = (true, p)) := by
  refine ⟨?_, ?_, ?_⟩
  · intro h
    simp [NextArrayValue, h]
  · intro h
    have hne : p.st ≠ LookaheadParsingState.kExitingArray := by
      rcases h with h | h | h <;> simp [h]
    simp [NextArrayValue, hne, h]
  · intro h1 h2
    simp [NextArrayValue, h1, h2]

/-- Witness for C5 at three concrete adapter states, one per case. -/
theorem next_array_value_cases_witness :
    NextArrayValue ⟨RValue.null, LookaheadParsingState.kExitingArray,
        [REvent.EndArray], false⟩ =
      (false, ParseNext ⟨RValue.null, LookaheadParsingState.kExitingArray,
        [REvent.EndArray], false⟩) ∧
    NextArrayValue ⟨RValue.stringV "k", LookaheadParsingState.kHasKey,
        [], false⟩ =
      (false, ⟨RValue.stringV "k", LookaheadParsingState.kError, [],
        false⟩) ∧
    NextArrayValue ⟨RValue.uintV 7, LookaheadParsingState.kHasNumber,
        [], false⟩ =
      (true, ⟨RValue.uintV 7, LookaheadParsingState.kHasNumber, [],
        false⟩) := by
  refine ⟨?_, ?_, ?_⟩
  · exact (next_array_value_cases
      ⟨RValue.null, LookaheadParsingState.kExitingArray,
        [REvent.EndArray], false⟩).1 rfl
  · exact (next_array_value_cases
      ⟨RValue.stringV "k", LookaheadParsingState.kHasKey, [],
        false⟩).2.1 (Or.inr (Or.inr rfl))
  · exact (next_array_value_cases
      ⟨RValue.uintV 7, LookaheadParsingState.kHasNumber, [],
        false⟩).2.2 (by decide) (by decide)

/-- Claim C6: GetInt succeeds exactly when the state is kHasNumber and
the buffered number carries the native-int flag, in which case the
returned integer is in native int range (given the C types of the
handler arguments) and a fetch follows; a number stored as
floating-point (whatever its value) or out of int range fails into
kError returning the sentinel 0 with no fetch; GetDouble succeeds on
any kHasNumber token and widens integer-stored values to
floating-point.  Concretely, on the token of "42" GetInt returns 42
and GetDouble returns 42.0, and on the token of "3.14" GetInt fails
into kError. -/
theorem getint_getdouble_numeric_semantics :
    (∀ p : ParserState, p.st = .kHasNumber → p.v.isInt = true →
      p.v.wellTyped →
      GetInt p = (p.v.getIntVal, ParseNext p) ∧
        -2147483648 ≤ p.v.getIntVal ∧ p.v.getIntVal ≤ 2147483647) ∧
    (∀ p : ParserState, ¬(p.st = .kHasNumber ∧ p.v.isInt = true) →
      GetInt p = (0, { p with st := .kError })) ∧
    (∀ (p : ParserState) (d : Rat), p.v = .doubleV d →
      GetInt p = (0, { p with st := .kError })) ∧
    (∀ p : ParserState, p.st = .kHasNumber →
      GetDouble p = (p.v.getDoubleVal, ParseNext p)) ∧
    (∀ i : Int, (RValue.intV i).getDoubleVal = (i : Rat)) ∧
    (∀ u : Nat, (RValue.uintV u).getDoubleVal = (u : Rat)) ∧
    GetInt ⟨RValue.uintV 42, LookaheadParsingState.kHasNumber, [],
        false⟩ =
      (42, ParseNext ⟨RValue.uintV 42, LookaheadParsingState.kHasNumber,
        [], false⟩) ∧
    GetDouble ⟨RValue.uintV 42, LookaheadParsingState.kHasNumber, [],
        false⟩ =
      ((42 : Rat), ParseNext ⟨RValue.uintV 42,
        LookaheadParsingState.kHasNumber, [], false⟩) ∧
    GetInt ⟨RValue.doubleV (157 / 50 : Rat),
        LookaheadParsingState.kHasNumber, [], false⟩ =
      (0, ⟨RValue.doubleV (157 / 50 : Rat), LookaheadParsingState.kError,
        [], false⟩) ∧
    GetInt ⟨RValue.int64V 5000000000, LookaheadParsingState.kHasNumber,
        [], false⟩ =
      (0, ⟨RValue.int64V 5000000000, LookaheadParsingState.kError, [],
        false⟩) := by
  refine ⟨?_, ?_, ?_, ?_, fun i => rfl, fun u => rfl, by decide, by decide,
    by simp [GetInt, RValue.isInt], by decide⟩
  · intro p h1 h2 h3
    refine ⟨by simp [GetInt, h1, h2], ?_, ?_⟩ <;>
      cases hv : p.v <;>
        rw [hv] at h2 h3 <;>
          simp_all [RValue.isInt, RValue.wellTyped, RValue.getIntVal] <;>
            omega
  · intro p h
    rw [Classical.not_and_iff_or_not_not] at h
    rcases h with h | h
    · simp [GetInt, h]
    · simp only [Bool.not_eq_true] at h
      simp [GetInt, h]
  · intro p d h
    have hint : p.v.isInt = false := by rw [h]; rfl
    simp [GetInt, hint]
  · intro p h
    simp [GetDouble, h]

/-- Witness for C6: the universally quantified success case applied at
the buffered token of "42". -/
theorem getint_getdouble_numeric_semantics_witness :
    GetInt ⟨RValue.uintV 42, LookaheadParsingState.kHasNumber,
        [REvent.EndArray], false⟩ =
      ((RValue.uintV 42).getIntVal,
        ParseNext ⟨RValue.uintV 42, LookaheadParsingState.kHasNumber,
          [REvent.EndArray], false⟩) ∧
    -2147483648 ≤ (RValue.uintV 42).getIntVal ∧
    (RValue.uintV 42).getIntVal ≤ 2147483647 :=
  getint_getdouble_numeric_semantics.1
    ⟨RValue.uintV 42, LookaheadParsingState.kHasNumber,
      [REvent.EndArray], false⟩ rfl (by decide) (by decide)

/-- Claim C7: NextObjectKey: in state kHasKey it returns the buffered
key text and then fetches; in state kExitingObject it fetches and
returns the null "no more keys" sentinel; in every other state it sets
the state to kError and returns the null sentinel without fetching
(events and error flag untouched). -/
theorem next_object_key_cases (p : ParserState) :
    (∀ s : String, p.st = .kHasKey → p.v = .stringV s →
      NextObjectKey p = (some s, ParseNext p)) ∧
    (p.st = .kExitingObject → NextObjectKey p = (none, ParseNext p)) ∧
    (p.st ≠ .kHasKey → p.st ≠ .kExitingObject →
      NextObjectKey p = (none, { p with st := .kError })) := by
  refine ⟨?_, ?_, ?_⟩
  · intro s h1 h2
    simp [NextObjectKey, h1, h2, RValue.getStringVal]
  · intro h
    have hne : p.st ≠ LookaheadParsingState.kHasKey := by simp [h]
    simp [NextObjectKey, hne, h]
  · intro h1 h2
    simp [NextObjectKey, h1, h2]

/-- Witness for C7 at three concrete adapter states, one per case. -/
theorem next_object_key_cases_witness :
    NextObjectKey ⟨RValue.stringV "a", LookaheadParsingState.kHasKey,
        [REvent.UintE 1, REvent.EndObject], false⟩ =
      (some "a", ParseNext ⟨RValue.stringV "a",
        LookaheadParsingState.kHasKey,
        [REvent.UintE 1, REvent.EndObject], false⟩) ∧
    NextObjectKey ⟨RValue.null, LookaheadParsingState.kExitingObject,
        [], false⟩ =
      (none, ParseNext ⟨RValue.null, LookaheadParsingState.kExitingObject,
        [], false⟩) ∧
    NextObjectKey ⟨RValue.uintV 3, LookaheadParsingState.kHasNumber,
        [], false⟩ =
      (none, ⟨RValue.uintV 3, LookaheadParsingState.kError, [],
        false⟩) := by
  refine ⟨?_, ?_, ?_⟩
  · exact (next_object_key_cases
      ⟨RValue.stringV "a", LookaheadParsingState.kHasKey,
        [REvent.UintE 1, REvent.EndObject], false⟩).1 "a" rfl rfl
  · exact (next_object_key_cases
      ⟨RValue.null, LookaheadParsingState.kExitingObject, [],
        false⟩).2.1 rfl
  · exact (next_object_key_cases
      ⟨RValue.uintV 3, LookaheadParsingState.kHasNumber, [],
        false⟩).2.2 (by decide) (by decide)

/-- Claim C8: PeekValue and PeekType never advance the cursor or
mutate any adapter state: the state component they return is the input
state, repeated calls yield identical results, and any navigation
sequence behaves the same with or without a preceding peek.  PeekValue
returns the buffered value exactly in the kHasNull..kHasKey states
(null pointer otherwise); PeekType returns the scalar's type tag in
those states, the array/object tag in kEnteringArray/kEnteringObject,
and -1 in all other states, including kError and the exiting states. -/
theorem peek_never_advances_cursor (p : ParserState) :
    (PeekValue p).2 = p ∧
    (PeekType p).2 = p ∧
    PeekValue ((PeekValue p).2) = PeekValue p ∧
    PeekType ((PeekType p).2) = PeekType p ∧
    (∀ ops : List NavOp,
      runNav p (NavOp.peekValue :: ops) = runNav p ops) ∧
    (∀ ops : List NavOp,
      runNav p (NavOp.peekType :: ops) = runNav p ops) ∧
    (p.st = .kHasNull ∨ p.st = .kHasBool ∨ p.st = .kHasNumber ∨
        p.st = .kHasString ∨ p.st = .kHasKey →
      (PeekValue p).1 = some p.v ∧ (PeekType p).1 = p.v.getType) ∧
    (¬(p.st = .kHasNull ∨ p.st = .kHasBool ∨ p.st = .kHasNumber ∨
        p.st = .kHasString ∨ p.st = .kHasKey) →
      (PeekValue p).1 = none) ∧
    (p.st = .kEnteringArray → (PeekType p).1 = 4) ∧
    (p.st = .kEnteringObject → (PeekType p).1 = 3) ∧
    (¬(p.st = .kHasNull ∨ p.st = .kHasBool ∨ p.st = .kHasNumber ∨
        p.st = .kHasString ∨ p.st = .kHasKey) →
      p.st ≠ .kEnteringArray → p.st ≠ .kEnteringObject →
      (PeekType p).1 = -1) := by
  have h1 : (PeekValue p).2 = p := by
    unfold PeekValue
    split <;> rfl
  have h2 : (PeekType p).2 = p := by
    unfold PeekType
    split <;> [rfl; (split <;> [rfl; (split <;> rfl)])]
  refine ⟨h1, h2, by rw [h1], by rw [h2], ?_, ?_, ?_, ?_, ?_, ?_, ?_⟩
  · intro ops
    show List.foldl applyNav (applyNav p NavOp.peekValue) ops =
      List.foldl applyNav p ops
    rw [show applyNav p NavOp.peekValue = (PeekValue p).2 from rfl, h1]
  · intro ops
    show List.foldl applyNav (applyNav p NavOp.peekType) ops =
      List.foldl applyNav p ops
    rw [show applyNav p NavOp.peekType = (PeekType p).2 from rfl, h2]
  · intro h
    rcases h with h | h | h | h | h <;>
      simp [PeekValue, PeekType, h, LookaheadParsingState.toNat]
  · intro h
    cases hst : p.st <;>
      simp_all [PeekValue, LookaheadParsingState.toNat]
  · intro h
    simp [PeekType, h, LookaheadParsingState.toNat]
  · intro h
    simp [PeekType, h, LookaheadParsingState.toNat]
  · intro h ha ho
    cases hst : p.st <;>
      simp_all [PeekType, LookaheadParsingState.toNat]

/-- Witness for C8 at a concrete buffered-string state. -/
theorem peek_never_advances_cursor_witness :
    (PeekValue ⟨RValue.stringV "s", LookaheadParsingState.kHasString,
        [REvent.EndObject], false⟩).1 = some (RValue.stringV "s") ∧
    (PeekType ⟨RValue.stringV "s", LookaheadParsingState.kHasString,
        [REvent.EndObject], false⟩).1 =
      (RValue.stringV "s").getType :=
  (peek_never_advances_cursor
    ⟨RValue.stringV "s", LookaheadParsingState.kHasString,
      [REvent.EndObject], false⟩).2.2.2.2.2.2.1
    (Or.inr (Or.inr (Or.inr (Or.inl rfl))))

/-- Claim C9: error detection is delayed by one fetch.  A fetch that
drives the Event Source into an error during that same call — a
syntax error hit by IterativeParseNext (exhausted event list) or a
rejected raw-number event — leaves the adapter's state and buffered
value unchanged: immediately afterwards IsValid() is still true and
PeekValue/PeekType still report the stale previous token; the state
becomes kError only at the start of the next fetch, which checks the
error flag before parsing.  In particular an adapter constructed on a
document invalid at its very first token stays in kInit with
IsValid() true. -/
theorem error_detection_delayed_one_fetch :
    (∀ p : ParserState, p.hasError = false → p.events = [] →
      ParseNext p = { p with hasError := true }) ∧
    (∀ (p : ParserState) (rest : List REvent), p.hasError = false →
      p.events = REvent.RawNumber :: rest →
      ParseNext p = { p with events := rest, hasError := true }) ∧
    (∀ p : ParserState, p.hasError = false → p.events = [] →
      p.st ≠ .kError →
      IsValid (ParseNext p) = true ∧
      (PeekValue (ParseNext p)).1 = (PeekValue p).1 ∧
      (PeekType (ParseNext p)).1 = (PeekType p).1) ∧
    (∀ p : ParserState, p.hasError = true →
      ParseNext p = { p with st := .kError }) ∧
    mkParser [] = ⟨RValue.null, LookaheadParsingState.kInit, [], true⟩ ∧
    IsValid (mkParser []) = true ∧
    (∀ es : List REvent,
      (mkParser (REvent.RawNumber :: es)).st =
        LookaheadParsingState.kInit ∧
      IsValid (mkParser (REvent.RawNumber :: es)) = true) := by
  have hempty : ∀ p : ParserState, p.hasError = false → p.events = [] →
      ParseNext p = { p with hasError := true } := by
    intro p hflag hev
    simp [ParseNext, hflag, hev]
  refine ⟨hempty, ?_, ?_, ?_, by decide, by decide, ?_⟩
  · intro p rest hflag hev
    simp [ParseNext, hflag, hev, handleEvent]
  · intro p hflag hev hst
    rw [hempty p hflag hev]
    refine ⟨by simpa [IsValid] using hst, ?_, ?_⟩ <;>
      · simp only [PeekValue, PeekType]
        split_ifs <;> rfl
  · intro p hflag
    simp [ParseNext, hflag]
  · intro es
    constructor <;> simp [mkParser, ParseNext, handleEvent, IsValid]

/-- Witness for C9: the failing fetch at a concrete exhausted-stream
state leaves the buffered number token in place. -/
theorem error_detection_delayed_one_fetch_witness :
    ParseNext ⟨RValue.uintV 1, LookaheadParsingState.kHasNumber, [],
        false⟩ =
      ⟨RValue.uintV 1, LookaheadParsingState.kHasNumber, [], true⟩ :=
  error_detection_delayed_one_fetch.1
    ⟨RValue.uintV 1, LookaheadParsingState.kHasNumber, [], false⟩ rfl rfl

/-- Claim C10: every navigation operation fails atomically on a
precondition violation: called in a state violating its precondition,
the only mutation is `st_ = kError` — the Event Source is not advanced
(events and error flag untouched) and the buffered value is unchanged,
which is exactly what `{ p with st := kError }` states. -/
theorem precondition_violation_is_atomic (p : ParserState) :
    (p.st ≠ .kEnteringObject →
      EnterObject p = (false, { p with st := .kError })) ∧
    (p.st ≠ .kEnteringArray →
      EnterArray p = (false, { p with st := .kError })) ∧
    (p.st ≠ .kHasKey → p.st ≠ .kExitingObject →
      NextObjectKey p = (none, { p with st := .kError })) ∧
    (p.st = .kError ∨ p.st = .kExitingObject ∨ p.st = .kHasKey →
      NextArrayValue p = (false, { p with st := .kError })) ∧
    (¬(p.st = .kHasNumber ∧ p.v.isInt = true) →
      GetInt p = (0, { p with st := .kError })) ∧
    (p.st ≠ .kHasNumber → GetDouble p = (0, { p with st := .kError })) ∧
    (p.st ≠ .kHasBool → GetBool p = (false, { p with st := .kError })) ∧
    (p.st ≠ .kHasString →
      GetString p = (none, { p with st := .kError })) ∧
    (p.st ≠ .kHasNull → GetNull p = { p with st := .kError }) := by
  refine ⟨?_, ?_, ?_, ?_, ?_, ?_, ?_, ?_, ?_⟩
  · intro h
    simp [EnterObject, h]
  · intro h
    simp [EnterArray, h]
  · intro h1 h2
    simp [NextObjectKey, h1, h2]
  · intro h
    have hne : p.st ≠ LookaheadParsingState.kExitingArray := by
      rcases h with h | h | h <;> simp [h]
    simp [NextArrayValue, hne, h]
  · intro h
    rw [Classical.not_and_iff_or_not_not] at h
    rcases h with h | h
    · simp [GetInt, h]
    · simp only [Bool.not_eq_true] at h
      simp [GetInt, h]
  · intro h
    simp [GetDouble, h]
  · intro h
    simp [GetBool, h]
  · intro h
    simp [GetString, h]
  · intro h
    simp [GetNull, h]

/-- Witness for C10: EnterObject on a freshly buffered number token
only flips the state to kError, leaving value, events and error flag
alone. -/
theorem precondition_violation_is_atomic_witness :
    EnterObject ⟨RValue.uintV 9, LookaheadParsingState.kHasNumber,
        [REvent.EndArray], false⟩ =
      (false, ⟨RValue.uintV 9, LookaheadParsingState.kError,
        [REvent.EndArray], false⟩) :=
  (precondition_violation_is_atomic
    ⟨RValue.uintV 9, LookaheadParsingState.kHasNumber,
      [REvent.EndArray], false⟩).1 (by decide)
